import Mathlib

/-!
Shallow embedding of the penrosecoin geometry engine (src/main.py and
src/test_main.py) over the reals, together with theorems settling the
frozen claims about it.

Conventions: a `Point` is a pair of reals; NumPy's floating point
trigonometry is modelled by exact real `Real.sin` / `Real.cos`;
`np.radians` becomes `radians`.  Python's sequential mutation of the
`vertices` array in `PenroseTile.get_vertices` is embedded as staged
definitions composed in the same order as the source lines.
-/

namespace Penrose

open Real

/-- A 2D point, as in the source's `(x, y)` tuples / NumPy rows. -/
abbrev Point : Type := ℝ × ℝ

/-- Embedding of `np.radians`: degrees to radians. -/
noncomputable def radians (d : ℝ) : ℝ := d * (Real.pi / 180)

/-- One row of `vertices @ rotation.T` in `main.py` lines 88-93: the standard
counter-clockwise rotation of a point about the origin by `deg` degrees. -/
noncomputable def rotPoint (deg : ℝ) (p : Point) : Point :=
  (p.1 * Real.cos (radians deg) - p.2 * Real.sin (radians deg),
   p.1 * Real.sin (radians deg) + p.2 * Real.cos (radians deg))

/-- The rotation step of the transform pipeline, applied to every vertex
(`vertices = vertices @ rotation.T`, main.py lines 87-93). -/
noncomputable def rotate (deg : ℝ) (ps : List Point) : List Point :=
  ps.map (rotPoint deg)

/-- The scale step `vertices *= scale` (main.py line 85). -/
noncomputable def scalePts (f : ℝ) (ps : List Point) : List Point :=
  ps.map (fun p => (p.1 * f, p.2 * f))

/-- The translate step `vertices += center` (main.py line 96). -/
def translatePts (v : Point) (ps : List Point) : List Point :=
  ps.map (fun p => (p.1 + v.1, p.2 + v.2))

/-- Embedding of `vertices.mean(axis=0)` (main.py line 81), also the centroid
check used by the tests (`first_tile.mean(axis=0)`, test_main.py line 61). -/
noncomputable def centroid (ps : List Point) : Point :=
  ((ps.map Prod.fst).sum / ps.length, (ps.map Prod.snd).sum / ps.length)

/-- Embedding of the `TileParams` dataclass (main.py lines 10-21).  The
Python defaults are `scale=1.0`, `margin=0.02`, `inner_radius=1.5`,
`outer_radius=3.5` and the colour strings below; defaults are supplied
explicitly at use sites here. -/
structure TileParams where
  scale : ℝ
  margin : ℝ
  inner_radius : ℝ
  outer_radius : ℝ
  kite_color : String
  dart_color : String
  background_color : String
  edge_color : String
  edge_width : ℝ

/-- The Python default `TileParams()` value. -/
noncomputable def defaultParams : TileParams :=
  ⟨1.0, 0.02, 1.5, 3.5, "#00FF00", "#FF0000", "#8800FF", "#DDDDDD", 2.0⟩

/-- Embedding of the `PenroseTile` constructor state (main.py lines 24-41). -/
structure PenroseTile where
  tile_type : String
  center : Point
  angle : ℝ
  params : TileParams

/-- The branch of `PenroseTile.get_vertices` that builds the untransformed
vertex array (main.py lines 45-77): `edge_length = 1.0`; for a kite,
`acute = 72`, otherwise (dart) `acute = 36`;
`d1 = edge_length * sin(radians((180 - acute) / 2))`,
`d2 = edge_length * sin(radians(acute / 2))`; vertices listed top, right,
bottom, left exactly as in the source array literal. -/
noncomputable def PenroseTile.baseVertices (t : PenroseTile) : List Point :=
  let edge_length : ℝ := 1.0
  if t.tile_type = "kite" then
    let acute : ℝ := 72
    let d1 := edge_length * Real.sin (radians ((180 - acute) / 2))
    let d2 := edge_length * Real.sin (radians (acute / 2))
    [((0 : ℝ), d2), (d1, 0), (0, -d2), (-d1, 0)]
  else
    let acute : ℝ := 36
    let d1 := edge_length * Real.sin (radians ((180 - acute) / 2))
    let d2 := edge_length * Real.sin (radians (acute / 2))
    [((0 : ℝ), d2), (d1, 0), (0, -d2), (-d1, 0)]

/-- The margin step of `PenroseTile.get_vertices` (main.py lines 79-82):
when `margin > 0`, shrink each vertex towards the centroid by the factor
`1 - margin`; otherwise leave the vertices unchanged. -/
noncomputable def marginShrink (margin : ℝ) (vertices : List Point) : List Point :=
  if margin > 0 then
    let c := centroid vertices
    vertices.map (fun p =>
      (c.1 + (p.1 - c.1) * (1 - margin), c.2 + (p.2 - c.2) * (1 - margin)))
  else
    vertices

/-- The vertex array of `PenroseTile.get_vertices` right after the margin and
scale steps and just before the rotation step (state at main.py line 86). -/
noncomputable def PenroseTile.verticesBeforeRotation (t : PenroseTile) : List Point :=
  scalePts t.params.scale (marginShrink t.params.margin t.baseVertices)

/-- Embedding of `PenroseTile.get_vertices` (main.py lines 43-98): base
vertices, then margin shrink, then scale, then rotation about the origin by
`self.angle`, then translation by `self.center`, in source order. -/
noncomputable def PenroseTile.get_vertices (t : PenroseTile) : List Point :=
  translatePts t.center (rotate t.angle t.verticesBeforeRotation)

/-- Embedding of the `PenroseCoin` state (main.py lines 108-113). -/
structure PenroseCoin where
  params : TileParams
  tiles : List PenroseTile

/-- Embedding of `PenroseCoin.add_tile` (main.py lines 115-119): construct a
tile sharing the coin's params and append it to the tile list.  The Python
method also returns the tile; only the state update matters here. -/
def PenroseCoin.add_tile (c : PenroseCoin) (tile_type : String)
    (center : Point) (angle : ℝ) : PenroseCoin :=
  { c with tiles := c.tiles ++ [⟨tile_type, center, angle, c.params⟩] }

/-- Embedding of `PenroseCoin.create_radial_pattern` (main.py lines 121-137):
reset the tile list, then for `i` in `0..4` add a kite at the origin with
angle `i * 72 + 90`.  The dart loop in the source is commented out. -/
def PenroseCoin.create_radial_pattern (c : PenroseCoin) : PenroseCoin :=
  let angle_step : ℝ := 72
  (List.range 5).foldl
    (fun acc i => acc.add_tile "kite" (0, 0) ((i : ℝ) * angle_step + 90))
    { c with tiles := [] }

/-- Embedding of `calculate_edge_length_of_unit_height_rhombus`
(test_main.py lines 78-80): `alpha = acute_angle / 2`;
return `0.5 / cos(radians(alpha))`. -/
noncomputable def calculate_edge_length_of_unit_height_rhombus (acute_angle : ℝ) : ℝ :=
  let alpha := acute_angle / 2
  0.5 / Real.cos (radians alpha)

/-- Modelled from the spec: `get_rhombus_vertices` is imported by
test_main.py from `main` but is absent from the provided source, so the
canonical vertex array follows the spec's words (section 4.2): half-diagonals
`d1 = cos(acute/2)`, `d2 = sin(acute/2)` under the unit edge length
convention, vertices ordered right, top, left, bottom. -/
noncomputable def rhombusCanonical (acute_angle : ℝ) : List Point :=
  let d1 := Real.cos (radians (acute_angle / 2))
  let d2 := Real.sin (radians (acute_angle / 2))
  [(d1, (0 : ℝ)), (0, d2), (-d1, 0), (0, -d2)]

/-- Modelled from the spec: `get_rhombus_vertices` is imported by
test_main.py from `main` but is absent from the provided source.  Per the
spec (sections 4.2 and 3) the canonical vertices are scaled, rotated by the
initial rotation about the origin, translated, then rotated by the final
rotation about the global origin, in that fixed order.  Parameter order and
names follow the test call sites
`get_rhombus_vertices(center, angle, acute, scale_factor=…,
initial_rotation=…)`; the Python defaults `scale_factor = 1` and
`initial_rotation = 0` are passed explicitly here. -/
noncomputable def get_rhombus_vertices (translation : Point) (final_rotation : ℝ)
    (acute_angle : ℝ) (scale_factor : ℝ) (initial_rotation : ℝ) : List Point :=
  rotate final_rotation
    (translatePts translation
      (rotate initial_rotation
        (scalePts scale_factor (rhombusCanonical acute_angle))))

/-- Modelled from the spec: `get_decagon_vertices` is imported by
test_main.py from `main` but is absent from the provided source.  Per the
spec (section 4.3) it produces 10 points equally spaced by 36 degrees
starting at 90 degrees (top), each at unit distance from the origin times
`scale_factor`, then translated by `center`. -/
noncomputable def get_decagon_vertices (center : Point) (scale_factor : ℝ) : List Point :=
  (List.range 10).map (fun (k : ℕ) =>
    (center.1 + scale_factor * Real.cos (radians (90 + 36 * (k : ℝ))),
     center.2 + scale_factor * Real.sin (radians (90 + 36 * (k : ℝ)))))

/-- Embedding of `get_penrose_coin_shapes` (test_main.py lines 92-140),
with the two functions it imports from `main` modelled from the spec as
above.  All constants and call arguments mirror the source. -/
noncomputable def get_penrose_coin_shapes (scale_factor : ℝ) : List (List Point) :=
  let KITE_ACUTE_ANGLE : ℝ := 72
  let KITE_OBTUSE_ANGLE : ℝ := 180 - KITE_ACUTE_ANGLE
  let DART_ACUTE_ANGLE : ℝ := 36
  let first_tile := get_rhombus_vertices (0.0, 0.5) 0 KITE_OBTUSE_ANGLE scale_factor 0
  let second_tile := get_rhombus_vertices (0.0, 0.5) 72 KITE_OBTUSE_ANGLE scale_factor 0
  let third_tile := get_rhombus_vertices (0.0, 0.5) 144 KITE_OBTUSE_ANGLE scale_factor 0
  let fourth_tile := get_rhombus_vertices (0.0, 0.5) 216 KITE_OBTUSE_ANGLE scale_factor 0
  let fifth_tile := get_rhombus_vertices (0.0, 0.5) 288 KITE_OBTUSE_ANGLE scale_factor 0
  let edge_length := calculate_edge_length_of_unit_height_rhombus KITE_ACUTE_ANGLE
  let dart_long_length := 2 * edge_length * Real.cos (radians (DART_ACUTE_ANGLE / 2))
  let dart_sf := dart_long_length * scale_factor
  let half_width_dart := edge_length * Real.sin (radians (DART_ACUTE_ANGLE / 2))
  let dart_center := edge_length + half_width_dart
  let first_dart := get_rhombus_vertices (0.0, dart_center) 36 144 dart_sf 90
  let second_dart := get_rhombus_vertices (0.0, dart_center) 108 144 dart_sf 90
  let third_dart := get_rhombus_vertices (0.0, dart_center) 180 144 dart_sf 90
  let fourth_dart := get_rhombus_vertices (0.0, dart_center) 252 144 dart_sf 90
  let fifth_dart := get_rhombus_vertices (0.0, dart_center) 324 144 dart_sf 90
  let decagon_sf : ℝ := 1.0
  let decagon := get_decagon_vertices (0.0, 0.0) decagon_sf
  [decagon,
   first_tile, second_tile, third_tile, fourth_tile, fifth_tile,
   first_dart, second_dart, third_dart, fourth_dart, fifth_dart]

/-! ## Helper lemmas -/

lemma radians_add (a b : ℝ) : radians (a + b) = radians a + radians b := by
  unfold radians; ring

lemma rotPoint_rotPoint (a b : ℝ) (p : Point) :
    rotPoint a (rotPoint b p) = rotPoint (a + b) p := by
  unfold rotPoint
  rw [radians_add, Real.cos_add, Real.sin_add]
  simp only [Prod.mk.injEq]
  constructor <;> ring

lemma rotPoint_zero (p : Point) : rotPoint 0 p = p := by
  unfold rotPoint radians
  simp

lemma rotate_zero (ps : List Point) : rotate 0 ps = ps := by
  unfold rotate
  have h : rotPoint 0 = fun p => p := funext rotPoint_zero
  rw [h]
  simp

lemma marginShrink_nonpos {m : ℝ} (hm : ¬ m > 0) (ps : List Point) :
    marginShrink m ps = ps := by
  unfold marginShrink
  rw [if_neg hm]

lemma centroid_quad (x y : ℝ) :
    centroid [((0 : ℝ), y), (x, 0), (0, -y), (-x, 0)] = (0, 0) := by
  simp [centroid]

lemma marginShrink_quad_pos {m : ℝ} (hm : m > 0) (x y : ℝ) :
    marginShrink m [((0 : ℝ), y), (x, 0), (0, -y), (-x, 0)] =
      [((0 : ℝ), y * (1 - m)), (x * (1 - m), 0),
       (0, -(y * (1 - m))), (-(x * (1 - m)), 0)] := by
  unfold marginShrink
  rw [if_pos hm]
  simp only [centroid_quad]
  simp [neg_mul]

lemma scalePts_quad (s x y : ℝ) :
    scalePts s [((0 : ℝ), y), (x, 0), (0, -y), (-x, 0)] =
      [((0 : ℝ), y * s), (x * s, 0), (0, -(y * s)), (-(x * s), 0)] := by
  simp [scalePts]

/-- The acute-angle constant chosen by the branch of
`PenroseTile.get_vertices`: 72 for a kite, 36 otherwise (dart). -/
def PenroseTile.acute (t : PenroseTile) : ℝ :=
  if t.tile_type = "kite" then 72 else 36

lemma baseVertices_eq (t : PenroseTile) :
    t.baseVertices =
      [((0 : ℝ), Real.sin (radians (t.acute / 2))),
       (Real.sin (radians ((180 - t.acute) / 2)), 0),
       (0, -Real.sin (radians (t.acute / 2))),
       (-Real.sin (radians ((180 - t.acute) / 2)), 0)] := by
  unfold PenroseTile.baseVertices PenroseTile.acute
  by_cases hk : t.tile_type = "kite" <;> simp [hk] <;> norm_num

lemma verticesBeforeRotation_quad (t : PenroseTile) :
    ∃ x y : ℝ,
      t.verticesBeforeRotation = [((0 : ℝ), y), (x, 0), (0, -y), (-x, 0)] := by
  unfold PenroseTile.verticesBeforeRotation
  rw [baseVertices_eq]
  by_cases hm : t.params.margin > 0
  · rw [marginShrink_quad_pos hm, scalePts_quad]
    exact ⟨_, _, rfl⟩
  · rw [marginShrink_nonpos hm, scalePts_quad]
    exact ⟨_, _, rfl⟩

lemma verticesBeforeRotation_eq (t : PenroseTile) (hm0 : 0 ≤ t.params.margin) :
    t.verticesBeforeRotation =
      [((0 : ℝ), Real.sin (radians (t.acute / 2)) * (1 - t.params.margin) * t.params.scale),
       (Real.sin (radians ((180 - t.acute) / 2)) * (1 - t.params.margin) * t.params.scale, 0),
       (0, -(Real.sin (radians (t.acute / 2)) * (1 - t.params.margin) * t.params.scale)),
       (-(Real.sin (radians ((180 - t.acute) / 2)) * (1 - t.params.margin) * t.params.scale), 0)] := by
  unfold PenroseTile.verticesBeforeRotation
  rw [baseVertices_eq]
  by_cases hm : t.params.margin > 0
  · rw [marginShrink_quad_pos hm, scalePts_quad]
  · have hm' : t.params.margin = 0 := le_antisymm (not_lt.mp hm) hm0
    rw [marginShrink_nonpos hm, scalePts_quad, hm']
    simp only [sub_zero, mul_one]

lemma centroid_quad_transform (x y θ : ℝ) (v : Point) :
    centroid (translatePts v (rotate θ [((0 : ℝ), y), (x, 0), (0, -y), (-x, 0)])) = v := by
  obtain ⟨v1, v2⟩ := v
  simp only [rotate, translatePts, List.map_cons, List.map_nil, rotPoint, centroid,
    List.length_cons, List.length_nil, List.sum_cons, List.sum_nil, Prod.mk.injEq]
  norm_num
  constructor <;> ring

lemma sin_radians_pos {d : ℝ} (h0 : 0 < d) (h1 : d < 180) :
    0 < Real.sin (radians d) := by
  unfold radians
  apply Real.sin_pos_of_pos_of_lt_pi
  · exact mul_pos h0 (by positivity)
  · nlinarith [Real.pi_pos]

lemma cos_radians_pos {d : ℝ} (h0 : -90 < d) (h1 : d < 90) :
    0 < Real.cos (radians d) := by
  unfold radians
  refine Real.cos_pos_of_mem_Ioo ⟨?_, ?_⟩
  · nlinarith [Real.pi_pos]
  · nlinarith [Real.pi_pos]

lemma sin_radians_compl (a : ℝ) :
    Real.sin (radians ((180 - a) / 2)) = Real.cos (radians (a / 2)) := by
  have h : radians ((180 - a) / 2) = Real.pi / 2 - radians (a / 2) := by
    unfold radians; ring
  rw [h, Real.sin_pi_div_two_sub]

lemma setOf_mem_quad (a b c d : Point) :
    {p : Point | p ∈ [a, b, c, d]} = {a, b, c, d} := by
  ext p
  simp [List.mem_cons]

lemma scalePts_one (ps : List Point) : scalePts 1 ps = ps := by
  unfold scalePts
  simp

lemma translatePts_zero (ps : List Point) : translatePts (0, 0) ps = ps := by
  unfold translatePts
  simp

lemma radians_36 : radians (72 / 2) = Real.pi / 5 := by
  unfold radians; ring

lemma sqrt5_lower : (2.236 : ℝ) < Real.sqrt 5 := by
  rw [show (2.236 : ℝ) = Real.sqrt (2.236 ^ 2) from (Real.sqrt_sq (by norm_num)).symm]
  apply Real.sqrt_lt_sqrt <;> norm_num

lemma sqrt5_upper : Real.sqrt 5 < 2.2361 := by
  rw [show (2.2361 : ℝ) = Real.sqrt (2.2361 ^ 2) from (Real.sqrt_sq (by norm_num)).symm]
  apply Real.sqrt_lt_sqrt <;> norm_num

lemma edge_length_72 :
    calculate_edge_length_of_unit_height_rhombus 72 = (Real.sqrt 5 - 1) / 2 := by
  show 0.5 / Real.cos (radians (72 / 2)) = (Real.sqrt 5 - 1) / 2
  rw [radians_36, Real.cos_pi_div_five]
  have h5 : Real.sqrt 5 * Real.sqrt 5 = 5 := Real.mul_self_sqrt (by norm_num)
  have hpos : (0 : ℝ) < 1 + Real.sqrt 5 := by positivity
  field_simp
  nlinarith [h5]

/-! ## Claim theorems -/

/-- C4: every tile's vertex output equals the result of applying, to the
canonical unit-edge vertices, exactly the five steps margin-shrink, scale,
initial-rotation-about-origin, translation, final-rotation-about-the-global-
origin, in exactly this order.  `PenroseTile.get_vertices` realizes the
pipeline with its single rotation as the initial rotation and final rotation
zero; the spec-modelled `get_rhombus_vertices` realizes it with margin
zero. -/
theorem transform_pipeline_order :
    (∀ t : PenroseTile,
      t.get_vertices =
        rotate 0 (translatePts t.center (rotate t.angle
          (scalePts t.params.scale (marginShrink t.params.margin t.baseVertices))))) ∧
    (∀ (translation : Point) (final_rotation acute_angle scale_factor initial_rotation : ℝ),
      get_rhombus_vertices translation final_rotation acute_angle scale_factor
          initial_rotation =
        rotate final_rotation (translatePts translation (rotate initial_rotation
          (scalePts scale_factor (marginShrink 0 (rhombusCanonical acute_angle)))))) := by
  constructor
  · intro t
    rw [rotate_zero]
    rfl
  · intro c fr a sf ir
    rw [marginShrink_nonpos (by norm_num)]
    rfl

/-- C9: rotating any polygon about the origin by θ degrees and then rotating
the result by -θ degrees yields the original polygon (exactly, in the real
arithmetic model; hence within any floating tolerance). -/
theorem rotate_neg_rotate (P : List Point) (θ : ℝ) :
    rotate (-θ) (rotate θ P) = P := by
  unfold rotate
  rw [List.map_map]
  have h : rotPoint (-θ) ∘ rotPoint θ = id := by
    funext p
    rw [Function.comp_apply, rotPoint_rotPoint, neg_add_cancel]
    exact rotPoint_zero p
  rw [h, List.map_id]

/-- C10: after `create_radial_pattern`, the coin holds exactly 5 tiles, all
of tile type "kite", all centered at the origin, at angles 90 + i*72 degrees
for i = 0..4 (90, 162, 234, 306, 378); no dart and no decagon tile is
produced. -/
theorem create_radial_pattern_tiles (c : PenroseCoin) :
    (c.create_radial_pattern).tiles =
      [⟨"kite", ((0 : ℝ), (0 : ℝ)), 90, c.params⟩,
       ⟨"kite", (0, 0), 162, c.params⟩,
       ⟨"kite", (0, 0), 234, c.params⟩,
       ⟨"kite", (0, 0), 306, c.params⟩,
       ⟨"kite", (0, 0), 378, c.params⟩] := by
  simp [PenroseCoin.create_radial_pattern, PenroseCoin.add_tile, List.range_succ]
  norm_num

/-- C6: for every tile (any tile type, center, angle, margin and scale),
`get_vertices` returns exactly 4 points whose centroid equals the tile's
center exactly (the code rotates about the origin before translating, so the
centroid lands on the translation). -/
theorem get_vertices_count_and_centroid (t : PenroseTile) :
    t.get_vertices.length = 4 ∧ centroid t.get_vertices = t.center := by
  obtain ⟨x, y, hxy⟩ := verticesBeforeRotation_quad t
  unfold PenroseTile.get_vertices
  rw [hxy]
  constructor
  · simp [translatePts, rotate]
  · exact centroid_quad_transform x y t.angle t.center

/-- C1 counterexample: for the concrete kite tile at the origin with the
default parameters, the untransformed vertex array built by
`PenroseTile.get_vertices` is not the claimed right, top, left, bottom
sequence: its first entry is the top vertex (0, d2), not the right vertex
(d1, 0). -/
theorem kite_base_order_counterexample :
    (PenroseTile.mk "kite" (0, 0) 0 defaultParams).baseVertices ≠
      [(Real.sin (radians ((180 - 72) / 2)), (0 : ℝ)),
       (0, Real.sin (radians (72 / 2))),
       (-Real.sin (radians ((180 - 72) / 2)), 0),
       (0, -Real.sin (radians (72 / 2)))] := by
  intro h
  have hb := baseVertices_eq (PenroseTile.mk "kite" (0, 0) 0 defaultParams)
  simp only [PenroseTile.acute, if_pos rfl] at hb
  rw [hb] at h
  simp only [List.cons.injEq, Prod.mk.injEq] at h
  have h1 : (0 : ℝ) = Real.sin (radians ((180 - 72) / 2)) := h.1.1
  have h2 : 0 < Real.sin (radians ((180 - 72) / 2)) :=
    sin_radians_pos (by norm_num) (by norm_num)
  linarith

/-- C1 (amended): `PenroseTile.get_vertices` (main.py) builds its canonical
vertices in the fixed order top (0,d2), right (d1,0), bottom (0,-d2),
left (-d1,0) — clockwise starting at the top — for kite and dart alike,
before margin, scale, rotation and translation; the spec's right, top, left,
bottom order is the one emitted by the test-imported generator
`get_rhombus_vertices` (modelled from the spec), shown here at identity
transforms. -/
theorem base_vertex_order :
    (∀ t : PenroseTile,
      t.baseVertices =
        [((0 : ℝ), Real.sin (radians (t.acute / 2))),
         (Real.sin (radians ((180 - t.acute) / 2)), 0),
         (0, -Real.sin (radians (t.acute / 2))),
         (-Real.sin (radians ((180 - t.acute) / 2)), 0)]) ∧
    (∀ a : ℝ,
      get_rhombus_vertices (0, 0) 0 a 1 0 =
        [(Real.cos (radians (a / 2)), (0 : ℝ)),
         (0, Real.sin (radians (a / 2))),
         (-Real.cos (radians (a / 2)), 0),
         (0, -Real.sin (radians (a / 2)))]) := by
  refine ⟨baseVertices_eq, fun a => ?_⟩
  unfold get_rhombus_vertices
  rw [rotate_zero, rotate_zero, scalePts_one, translatePts_zero]
  rfl

/-- C2 counterexample: `calculate_edge_length_of_unit_height_rhombus 72` is
0.5/cos(36°) = (√5-1)/2 ≈ 0.618, which is more than 0.2 away from the
claimed approximate value 0.851. -/
theorem edge_length_72_far_from_0851 :
    |calculate_edge_length_of_unit_height_rhombus 72 - 0.851| > 0.2 := by
  rw [edge_length_72]
  have h1 := sqrt5_upper
  rw [abs_of_neg (by nlinarith)]
  nlinarith

/-- C2 (amended): `calculate_edge_length_of_unit_height_rhombus 72` is the
fixed positive constant (√5-1)/2, approximately 0.618 (the reciprocal golden
ratio), not approximately 0.851. -/
theorem edge_length_72_value :
    calculate_edge_length_of_unit_height_rhombus 72 = (Real.sqrt 5 - 1) / 2 ∧
    0 < calculate_edge_length_of_unit_height_rhombus 72 ∧
    |calculate_edge_length_of_unit_height_rhombus 72 - 0.618| < 0.001 := by
  have h1 := sqrt5_lower
  have h2 := sqrt5_upper
  refine ⟨edge_length_72, ?_, ?_⟩
  · rw [edge_length_72]
    nlinarith
  · rw [edge_length_72, abs_lt]
    constructor <;> nlinarith

/-- C3 counterexample: with edge length
`calculate_edge_length_of_unit_height_rhombus 72`, the vertical span
2 × edgeLength × sin(36°) equals tan(36°) ≈ 0.727, not 1. -/
theorem vertical_span_72_not_one :
    2 * calculate_edge_length_of_unit_height_rhombus 72 *
      Real.sin (radians (72 / 2)) ≠ 1 := by
  show 2 * (0.5 / Real.cos (radians (72 / 2))) * Real.sin (radians (72 / 2)) ≠ 1
  rw [radians_36]
  have hc : Real.cos (Real.pi / 5) = (1 + Real.sqrt 5) / 4 := Real.cos_pi_div_five
  have h5 := sqrt5_lower
  have hcpos : 0 < Real.cos (Real.pi / 5) := by rw [hc]; nlinarith [Real.sqrt_nonneg 5]
  have hslt : Real.sin (Real.pi / 5) < 0.63 := by
    have hlt := Real.sin_lt (show 0 < Real.pi / 5 by positivity)
    nlinarith [Real.pi_lt_d2]
  intro h
  have hcne : Real.cos (Real.pi / 5) ≠ 0 := ne_of_gt hcpos
  field_simp at h
  nlinarith [h, hslt, h5, hc]

/-- C3 (amended): for every acute angle a in (0°, 180°), a rhombus given
edge length `calculate_edge_length_of_unit_height_rhombus a` = 0.5/cos(a/2)
has span along its long diagonal, 2 × edgeLength × cos(a/2) (the span 2×d1
toward the obtuse vertices — equivalently the vertical span of the rhombus
generated with the complementary parameter 180-a, as the sun composer uses
it), exactly equal to 1; its vertical span 2 × edgeLength × sin(a/2) equals
tan(a/2), which is 1 only at a = 90°. -/
theorem long_diagonal_span_one (a : ℝ) (h0 : 0 < a) (h1 : a < 180) :
    2 * calculate_edge_length_of_unit_height_rhombus a *
      Real.cos (radians (a / 2)) = 1 ∧
    2 * calculate_edge_length_of_unit_height_rhombus a *
      Real.sin (radians (a / 2)) = Real.tan (radians (a / 2)) := by
  have hc : 0 < Real.cos (radians (a / 2)) :=
    cos_radians_pos (by linarith) (by linarith)
  show 2 * (0.5 / Real.cos (radians (a / 2))) * Real.cos (radians (a / 2)) = 1 ∧
    2 * (0.5 / Real.cos (radians (a / 2))) * Real.sin (radians (a / 2)) =
      Real.tan (radians (a / 2))
  constructor
  · field_simp
    ring
  · rw [Real.tan_eq_sin_div_cos]
    field_simp
    ring

/-- Witness for the amended C3 theorem at the concrete angle a = 72. -/
theorem long_diagonal_span_one_witness :
    (0 : ℝ) < 72 ∧ (72 : ℝ) < 180 ∧
      (2 * calculate_edge_length_of_unit_height_rhombus 72 *
         Real.cos (radians (72 / 2)) = 1 ∧
       2 * calculate_edge_length_of_unit_height_rhombus 72 *
         Real.sin (radians (72 / 2)) = Real.tan (radians (72 / 2))) :=
  ⟨by norm_num, by norm_num, long_diagonal_span_one 72 (by norm_num) (by norm_num)⟩

/-- C7: for every kite or dart tile with margin in [0,1) and positive scale,
the vertex set of `PenroseTile.get_vertices` just before the rotation step is
{(d1,0), (0,d2), (-d1,0), (0,-d2)} for strictly positive d1, d2: the margin-
and scale-scaled multiples of the unit-edge half-diagonals cos(acute/2) and
sin(acute/2), the code's d1 = sin((180-acute)/2) being equal to cos(acute/2)
by the complementary-angle identity. -/
theorem vertices_before_rotation_symmetric (t : PenroseTile)
    (ht : t.tile_type = "kite" ∨ t.tile_type = "dart")
    (hm0 : 0 ≤ t.params.margin) (hm1 : t.params.margin < 1)
    (hs : 0 < t.params.scale) :
    ∃ d1 d2 : ℝ, 0 < d1 ∧ 0 < d2 ∧
      d1 = Real.cos (radians (t.acute / 2)) * (1 - t.params.margin) * t.params.scale ∧
      d2 = Real.sin (radians (t.acute / 2)) * (1 - t.params.margin) * t.params.scale ∧
      Real.sin (radians ((180 - t.acute) / 2)) = Real.cos (radians (t.acute / 2)) ∧
      {p : Point | p ∈ t.verticesBeforeRotation} =
        {(d1, 0), (0, d2), (-d1, 0), (0, -d2)} := by
  have hacute : t.acute = 72 ∨ t.acute = 36 := by
    rcases ht with h | h <;> simp [PenroseTile.acute, h]
  have hcos : 0 < Real.cos (radians (t.acute / 2)) := by
    rcases hacute with h | h <;> rw [h] <;>
      exact cos_radians_pos (by norm_num) (by norm_num)
  have hsin : 0 < Real.sin (radians (t.acute / 2)) := by
    rcases hacute with h | h <;> rw [h] <;>
      exact sin_radians_pos (by norm_num) (by norm_num)
  have h1m : 0 < 1 - t.params.margin := by linarith
  refine ⟨Real.cos (radians (t.acute / 2)) * (1 - t.params.margin) * t.params.scale,
          Real.sin (radians (t.acute / 2)) * (1 - t.params.margin) * t.params.scale,
          mul_pos (mul_pos hcos h1m) hs, mul_pos (mul_pos hsin h1m) hs,
          rfl, rfl, sin_radians_compl t.acute, ?_⟩
  rw [verticesBeforeRotation_eq t hm0, sin_radians_compl, setOf_mem_quad]
  ext p
  simp only [Set.mem_insert_iff, Set.mem_singleton_iff]
  tauto

/-- Witness for C7 at the concrete kite tile with the default parameters
(margin 0.02, scale 1). -/
theorem vertices_before_rotation_symmetric_witness :
    ((PenroseTile.mk "kite" (0, 0) 0 defaultParams).tile_type = "kite" ∨
      (PenroseTile.mk "kite" (0, 0) 0 defaultParams).tile_type = "dart") ∧
    0 ≤ (PenroseTile.mk "kite" (0, 0) 0 defaultParams).params.margin ∧
    (PenroseTile.mk "kite" (0, 0) 0 defaultParams).params.margin < 1 ∧
    0 < (PenroseTile.mk "kite" (0, 0) 0 defaultParams).params.scale ∧
    (∃ d1 d2 : ℝ, 0 < d1 ∧ 0 < d2 ∧
      d1 = Real.cos (radians ((PenroseTile.mk "kite" (0, 0) 0 defaultParams).acute / 2)) *
        (1 - (PenroseTile.mk "kite" (0, 0) 0 defaultParams).params.margin) *
        (PenroseTile.mk "kite" (0, 0) 0 defaultParams).params.scale ∧
      d2 = Real.sin (radians ((PenroseTile.mk "kite" (0, 0) 0 defaultParams).acute / 2)) *
        (1 - (PenroseTile.mk "kite" (0, 0) 0 defaultParams).params.margin) *
        (PenroseTile.mk "kite" (0, 0) 0 defaultParams).params.scale ∧
      Real.sin (radians ((180 - (PenroseTile.mk "kite" (0, 0) 0 defaultParams).acute) / 2)) =
        Real.cos (radians ((PenroseTile.mk "kite" (0, 0) 0 defaultParams).acute / 2)) ∧
      {p : Point | p ∈ (PenroseTile.mk "kite" (0, 0) 0 defaultParams).verticesBeforeRotation} =
        {(d1, 0), (0, d2), (-d1, 0), (0, -d2)}) :=
  ⟨Or.inl rfl, by norm_num [defaultParams], by norm_num [defaultParams],
   by norm_num [defaultParams],
   vertices_before_rotation_symmetric (PenroseTile.mk "kite" (0, 0) 0 defaultParams)
     (Or.inl rfl) (by norm_num [defaultParams]) (by norm_num [defaultParams])
     (by norm_num [defaultParams])⟩

lemma length_get_rhombus_vertices (c : Point) (fr a sf ir : ℝ) :
    (get_rhombus_vertices c fr a sf ir).length = 4 := by
  simp [get_rhombus_vertices, rotate, translatePts, scalePts, rhombusCanonical]

lemma length_get_decagon_vertices (c : Point) (sf : ℝ) :
    (get_decagon_vertices c sf).length = 10 := by
  simp [get_decagon_vertices]

lemma centroid_get_rhombus_vertices (c : Point) (fr a sf ir : ℝ) :
    centroid (get_rhombus_vertices c fr a sf ir) = rotPoint fr c := by
  obtain ⟨c1, c2⟩ := c
  simp only [get_rhombus_vertices, rhombusCanonical, rotate, translatePts, scalePts,
    List.map_cons, List.map_nil, rotPoint, centroid, List.length_cons, List.length_nil,
    List.sum_cons, List.sum_nil, Prod.mk.injEq]
  norm_num
  constructor <;> ring

/-- C5: the sun-motif composer at scale factor 0.85 returns exactly 11
polygons — one 10-point decagon followed by 5 four-point kites and 5
four-point darts — and each of the last four kite centroids is the image of
the previous kite's centroid under an exact 72-degree rotation about the
origin (exact in real arithmetic, hence within tolerance 1e-9). -/
theorem sun_motif_shapes :
    (get_penrose_coin_shapes 0.85).length = 11 ∧
    (get_penrose_coin_shapes 0.85).map List.length =
      [10, 4, 4, 4, 4, 4, 4, 4, 4, 4, 4] ∧
    centroid ((get_penrose_coin_shapes 0.85)[2]!) =
      rotPoint 72 (centroid ((get_penrose_coin_shapes 0.85)[1]!)) ∧
    centroid ((get_penrose_coin_shapes 0.85)[3]!) =
      rotPoint 72 (centroid ((get_penrose_coin_shapes 0.85)[2]!)) ∧
    centroid ((get_penrose_coin_shapes 0.85)[4]!) =
      rotPoint 72 (centroid ((get_penrose_coin_shapes 0.85)[3]!)) ∧
    centroid ((get_penrose_coin_shapes 0.85)[5]!) =
      rotPoint 72 (centroid ((get_penrose_coin_shapes 0.85)[4]!)) := by
  have h1 : (get_penrose_coin_shapes 0.85)[1]! =
      get_rhombus_vertices (0.0, 0.5) 0 (180 - 72) 0.85 0 := by
    simp [get_penrose_coin_shapes]
  have h2 : (get_penrose_coin_shapes 0.85)[2]! =
      get_rhombus_vertices (0.0, 0.5) 72 (180 - 72) 0.85 0 := by
    simp [get_penrose_coin_shapes]
  have h3 : (get_penrose_coin_shapes 0.85)[3]! =
      get_rhombus_vertices (0.0, 0.5) 144 (180 - 72) 0.85 0 := by
    simp [get_penrose_coin_shapes]
  have h4 : (get_penrose_coin_shapes 0.85)[4]! =
      get_rhombus_vertices (0.0, 0.5) 216 (180 - 72) 0.85 0 := by
    simp [get_penrose_coin_shapes]
  have h5 : (get_penrose_coin_shapes 0.85)[5]! =
      get_rhombus_vertices (0.0, 0.5) 288 (180 - 72) 0.85 0 := by
    simp [get_penrose_coin_shapes]
  refine ⟨?_, ?_, ?_, ?_, ?_, ?_⟩
  · simp [get_penrose_coin_shapes]
  · simp [get_penrose_coin_shapes, length_get_rhombus_vertices,
      length_get_decagon_vertices]
  · rw [h1, h2, centroid_get_rhombus_vertices, centroid_get_rhombus_vertices,
      rotPoint_zero]
  · rw [h2, h3, centroid_get_rhombus_vertices, centroid_get_rhombus_vertices,
      rotPoint_rotPoint]
    norm_num
  · rw [h3, h4, centroid_get_rhombus_vertices, centroid_get_rhombus_vertices,
      rotPoint_rotPoint]
    norm_num
  · rw [h4, h5, centroid_get_rhombus_vertices, centroid_get_rhombus_vertices,
      rotPoint_rotPoint]
    norm_num

end Penrose
